import Mathlib

/-!
Shallow embedding of `src/bioscout_app.py` (BioScout Islamabad).

The app stores observation records in a CSV file via pandas, loads a
knowledge base of text snippets from a directory, answers queries by
case-insensitive substring search, and renders a templated answer string.

Modelling conventions:
- A pandas cell value is `Field`: either a Python string (`Field.str`) or
  the float NaN that `pd.read_csv` produces for missing values (`Field.nan`).
- The CSV file on disk is `Option (List RawRow)`: `none` when the file is
  absent, `some rows` when it exists (header row implicit, one `RawRow` of
  eight textual cells per observation).
- `pd.DataFrame.to_csv` writes NaN as the empty cell; `pd.read_csv` turns
  the empty cell and pandas's default NA tokens back into NaN, and then
  infers a dtype per column: a column whose non-NA cells all parse as
  numbers or booleans is converted (int64/float64/bool), so its values are
  no longer Python strings.  A column certainly keeps its strings when it
  contains at least one non-NA cell that is not numeric-like (it stays
  object dtype), and a column of only NA cells is all-NaN either way;
  `read_csv` below returns `some` exactly on files where every column is
  of one of these two safe kinds, and `none` otherwise (the numeric values
  of a converted column, and their re-rendering by `to_csv`, are outside a
  string/NaN model).  `numericLike` over-approximates the tokens pandas
  can convert, which is the sound direction for that `none`.
- Python's `needle in haystack` on strings is `pyIn`, `str.lower()` is
  `pyLower` (charwise `Char.toLower`, which is what `String.toLower`
  does), `sep.join` is `String.intercalate`, and `str()` applied to a
  cell is `strOfField` (Python renders float NaN as "nan").
-/

namespace BioScout

/-- A pandas cell as the app sees it after `pd.read_csv`: a Python string,
or the float NaN standing for a missing value. -/
inductive Field where
  | str : String → Field
  | nan : Field
deriving DecidableEq, Repr

/-- One observation record, schema from `load_observations`
(bioscout_app.py lines 19-22). -/
structure Obs where
  observation_id : Field
  species_name : Field
  common_name : Field
  date_observed : Field
  location : Field
  image_url : Field
  notes : Field
  submitted_by : Field
deriving DecidableEq, Repr

/-- One data row of the CSV file as raw text cells, same schema order. -/
structure RawRow where
  observation_id : String
  species_name : String
  common_name : String
  date_observed : String
  location : String
  image_url : String
  notes : String
  submitted_by : String
deriving DecidableEq, Repr

/-- The default NA tokens `pd.read_csv` converts to NaN (pandas
`io.parsers` defaults), including the empty cell. -/
def pandasNaStrings : List String :=
  ["", "#N/A", "#N/A N/A", "#NA", "-1.#IND", "-1.#QNAN", "-NaN", "-nan",
   "1.#IND", "1.#QNAN", "<NA>", "N/A", "NA", "NULL", "NaN", "None",
   "n/a", "nan", "null"]

/-- How `DataFrame.to_csv` renders one cell: a string verbatim, NaN as the
empty cell. -/
def writeCell : Field → String
  | .str s => s
  | .nan => ""

/-- How `pd.read_csv` parses one cell: NA tokens (and the empty cell)
become NaN, everything else stays a string. -/
def readCell (s : String) : Field :=
  if s ∈ pandasNaStrings then .nan else .str s

/-- Encode an observation to a CSV data row (`to_csv`, cellwise). -/
def encodeObs (o : Obs) : RawRow :=
  ⟨writeCell o.observation_id, writeCell o.species_name, writeCell o.common_name,
   writeCell o.date_observed, writeCell o.location, writeCell o.image_url,
   writeCell o.notes, writeCell o.submitted_by⟩

/-- Decode a CSV data row to an observation (`read_csv`, cellwise). -/
def decodeRow (r : RawRow) : Obs :=
  ⟨readCell r.observation_id, readCell r.species_name, readCell r.common_name,
   readCell r.date_observed, readCell r.location, readCell r.image_url,
   readCell r.notes, readCell r.submitted_by⟩

/-- Nonempty all-digit character list. -/
def digits1 (l : List Char) : Bool :=
  !l.isEmpty && l.all Char.isDigit

/-- Strip one leading sign character. -/
def stripSign : List Char → List Char
  | '+' :: rest => rest
  | '-' :: rest => rest
  | l => l

/-- An exponent suffix: `e` followed by an optionally signed digit run. -/
def expPart : List Char → Bool
  | 'e' :: rest => digits1 (stripSign rest)
  | _ => false

/-- What may follow the integer part of a float token: nothing, a
fractional part (with optional exponent), or an exponent. -/
def fracExp : List Char → Bool
  | [] => true
  | '.' :: rest =>
    (rest.dropWhile Char.isDigit).isEmpty || expPart (rest.dropWhile Char.isDigit)
  | l => expPart l

/-- Drop surrounding whitespace from a character list. -/
def trimChars (l : List Char) : List Char :=
  ((l.dropWhile Char.isWhitespace).reverse.dropWhile Char.isWhitespace).reverse

/-- Over-approximation of the cell tokens `pd.read_csv` can convert to a
non-string value when a whole column parses: optionally signed integer or
float literals (with fraction and/or exponent), infinities, and boolean
tokens, modulo surrounding whitespace and letter case. -/
def numericLike (s : String) : Bool :=
  let low := (trimChars s.data).map Char.toLower
  let core := stripSign low
  low == "true".data || low == "false".data
  || core == "inf".data || core == "infinity".data
  || (match core with
      | '.' :: rest =>
        digits1 (rest.takeWhile Char.isDigit)
          && ((rest.dropWhile Char.isDigit).isEmpty
              || expPart (rest.dropWhile Char.isDigit))
      | l => digits1 (l.takeWhile Char.isDigit) && fracExp (l.dropWhile Char.isDigit))

/-- The column certainly keeps its strings under dtype inference: either
some cell is a genuine string (neither an NA token nor numeric-like), so
the column stays object dtype, or every cell is an NA token, so the
column's values are all NaN whatever its dtype. -/
def colKeepsStrings (cells : List String) : Bool :=
  cells.any (fun s => !(decide (s ∈ pandasNaStrings)) && !numericLike s)
  || cells.all (fun s => decide (s ∈ pandasNaStrings))

/-- Every one of the eight columns of the file keeps its strings. -/
def dtypeSafe (rows : List RawRow) : Bool :=
  colKeepsStrings (rows.map (fun r => r.observation_id))
  && colKeepsStrings (rows.map (fun r => r.species_name))
  && colKeepsStrings (rows.map (fun r => r.common_name))
  && colKeepsStrings (rows.map (fun r => r.date_observed))
  && colKeepsStrings (rows.map (fun r => r.location))
  && colKeepsStrings (rows.map (fun r => r.image_url))
  && colKeepsStrings (rows.map (fun r => r.notes))
  && colKeepsStrings (rows.map (fun r => r.submitted_by))

/-- `pd.read_csv` on the data rows of the file: NA tokens become NaN
cellwise and dtype inference runs per column.  On a `dtypeSafe` file no
column is converted, so the parsed values are exactly the cellwise
`readCell`; otherwise some column may hold int/float/bool values, which
this string/NaN model does not represent — `none`. -/
def read_csv (rows : List RawRow) : Option (List Obs) :=
  if dtypeSafe rows then some (rows.map decodeRow) else none

/-- The `if not os.path.exists(OBS_CSV_PATH)` branch of `load_observations`
(lines 17-23): when the file is absent, write a header-only CSV (zero data
rows); when it exists, leave it untouched. -/
def ensureInitialized : Option (List RawRow) → Option (List RawRow)
  | none => some []
  | some rows => some rows

/-- `load_observations` (lines 16-24): create the file if absent, then
parse it fully.  Returns the file state after the call together with the
parsed observations in file order (`none` when the parse leaves the
string/NaN model). -/
def load_observations (fs : Option (List RawRow)) :
    Option (List RawRow) × Option (List Obs) :=
  let fs' := ensureInitialized fs
  (fs', read_csv (fs'.getD []))

/-- `save_observation` (lines 26-29): read the whole table, append the new
record at the end, rewrite the entire file.  `none` when the store read is
outside the model (a dtype-converted table, whose numeric re-rendering by
`to_csv` is not modelled); `some` gives the rewritten file. -/
def save_observation (row : Obs) (fs : Option (List RawRow)) :
    Option (List RawRow) :=
  ((load_observations fs).2).map (fun df => (df ++ [row]).map encodeObs)

/-- The CSV write/read round-trip of the store: `save_observation`
followed by `load_observations` on the resulting file (which certainly
exists after a save). -/
def appendThenRead (row : Obs) (fs : Option (List RawRow)) : Option (List Obs) :=
  (save_observation row fs).bind (fun newRows => (load_observations (some newRows)).2)

/-- `get_kb_snippets` (lines 31-36): the knowledge-base directory is
`none` when absent (then `glob.glob` yields nothing) or `some files`, each
file a (name, content) pair; every `.txt` file is read fully, in
directory-listing order. -/
def get_kb_snippets (kb_dir : Option (List (String × String))) : List String :=
  match kb_dir with
  | none => []
  | some files => (files.filter (fun f => f.1.endsWith ".txt")).map (fun f => f.2)

/-- One mocked AI suggestion: a species label with a confidence label. -/
structure Suggestion where
  species : String
  confidence : String
deriving DecidableEq, Repr

/-- `ai_species_id` (lines 38-45): the mocked identifier; the image
argument (possibly absent) is ignored entirely. -/
def ai_species_id (image_file : Option String) : List Suggestion :=
  [⟨"Parus major (Great Tit)", "High"⟩,
   ⟨"Panthera pardus (Leopard)", "Medium"⟩,
   ⟨"Psittacula krameri (Rose-ringed Parakeet)", "Low"⟩]

/-- Python `str()` on a cell value: a string is itself, float NaN renders
as "nan". -/
def strOfField : Field → String
  | .str s => s
  | .nan => "nan"

/-- `needle` is a prefix of `hay` (character lists). -/
def isPrefixL : List Char → List Char → Bool
  | [], _ => true
  | _ :: _, [] => false
  | a :: as, b :: bs => a == b && isPrefixL as bs

/-- Python's substring test `needle in hay` over character lists: some
suffix of `hay` starts with `needle`. -/
def substrAux : List Char → List Char → Bool
  | n, [] => isPrefixL n []
  | n, _h :: t => isPrefixL n (_h :: t) || substrAux n t

/-- Python's `needle in hay` on strings. -/
def pyIn (needle hay : String) : Bool :=
  substrAux needle.data hay.data

/-- Python `str.lower()`, charwise (`String.toLower` is `s.map
Char.toLower`; mapping over the character list is the same function,
stated so that the kernel can evaluate it on literals). -/
def pyLower (s : String) : String :=
  String.mk (s.data.map Char.toLower)

/-- The four-field match condition of `simple_rag_query` (lines 53-58):
the lowered query occurs in `str(row[...]).lower()` for species_name,
common_name, notes, or location. -/
def rowMatches (query_lower : String) (row : Obs) : Bool :=
  pyIn query_lower (pyLower (strOfField row.species_name))
  || pyIn query_lower (pyLower (strOfField row.common_name))
  || pyIn query_lower (pyLower (strOfField row.notes))
  || pyIn query_lower (pyLower (strOfField row.location))

/-- The `for _, row in obs_df.iterrows()` loop of `simple_rag_query`
(lines 51-59): append each matching row, preserving order. -/
def obsHitsLoop (query_lower : String) : List Obs → List Obs
  | [] => []
  | r :: rs =>
    if rowMatches query_lower r then r :: obsHitsLoop query_lower rs
    else obsHitsLoop query_lower rs

/-- `simple_rag_query` (lines 47-60): lower the query once, filter the
snippets by case-insensitive containment, filter the observations by the
four-field condition. -/
def simple_rag_query (query : String) (obs_df : List Obs)
    (kb_snippets : List String) : List String × List Obs :=
  let query_lower := pyLower query
  let kb_hits := kb_snippets.filter (fun s => pyIn query_lower (pyLower s))
  let obs_hits := obsHitsLoop query_lower obs_df
  (kb_hits, obs_hits)

/-- Count occurrences of `x` in `l`. -/
def countOcc (x : String) (l : List String) : Nat :=
  (l.filter (fun y => y == x)).length

/-- `value_counts().idxmax()` over a list of strings: the first-appearing
value of maximal count ( `value_counts` sorts counts descending, keeping
first-appearance order among ties, and `idxmax` takes the first). -/
def firstArgmax (l : List String) : String :=
  (l.foldl
    (fun best x =>
      match best with
      | none => some x
      | some b => if countOcc x l > countOcc b l then some x else some b)
    none).getD ""

/-- The `submitted_by` column as `value_counts` sees it: NaN entries are
dropped, strings kept in row order. -/
def submittedColumn (obs_df : List Obs) : List String :=
  (obs_df.map (fun r => r.submitted_by)).filterMap
    (fun f => match f with | .str s => some s | .nan => none)

/-- `get_top_observer` (lines 62-65): "N/A" on an empty table, otherwise
the most frequent `submitted_by` value. -/
def get_top_observer (obs_df : List Obs) : String :=
  if obs_df.isEmpty then "N/A"
  else firstArgmax (submittedColumn obs_df)

/-- The fixed no-match message of the AI-answer branch (lines 190-192). -/
def notFoundMessage : String :=
  "Sorry, I could not find relevant information. Try using different keywords or submit new observations!"

/-- Python `s.split('\n')[0]`: everything before the first newline. -/
def firstLine (s : String) : String :=
  String.mk (s.data.takeWhile (fun c => c != '\n'))

/-- One knowledge-base bullet line (line 182). -/
def kbBullet (hit : String) : String :=
  "• " ++ firstLine hit

/-- One observation bullet line (line 185). -/
def obsBullet (row : Obs) : String :=
  "• " ++ strOfField row.species_name ++ " observed at "
    ++ strOfField row.location ++ " (" ++ strOfField row.date_observed ++ ")"

/-- The AI-answer rendering of tab 2 (lines 179-192): the fixed not-found
message when both hit lists are empty, otherwise the header followed by
one bullet per kb hit (first line only), a separating newline when there
are kb hits, and one bullet per observation hit. -/
def synthesizeAnswer (kb_hits : List String) (obs_hits : List Obs) : String :=
  if kb_hits.isEmpty && obs_hits.isEmpty then notFoundMessage
  else
    "Based on available data, here\x27s what we found:\n\n"
    ++ String.intercalate "\n" (kb_hits.map kbBullet)
    ++ (if kb_hits.isEmpty then "" else "\n")
    ++ String.intercalate "\n" (obs_hits.map obsBullet)

/-! ## Helper lemmas -/

/-- A cell value survives the to_csv / read_csv round-trip exactly when it
is NaN (written as the empty cell, read back as NaN) or a string that is
not one of pandas's NA tokens. -/
def cleanField : Field → Bool
  | .nan => true
  | .str s => decide (s ∉ pandasNaStrings)

/-- All eight cells of an observation survive the CSV round-trip. -/
@[reducible] def CleanObs (o : Obs) : Prop :=
  cleanField o.observation_id = true ∧ cleanField o.species_name = true
    ∧ cleanField o.common_name = true ∧ cleanField o.date_observed = true
    ∧ cleanField o.location = true ∧ cleanField o.image_url = true
    ∧ cleanField o.notes = true ∧ cleanField o.submitted_by = true

theorem readCell_writeCell (f : Field) (h : cleanField f = true) :
    readCell (writeCell f) = f := by
  cases f with
  | nan => decide
  | str s =>
    have hs : s ∉ pandasNaStrings := of_decide_eq_true h
    simp [readCell, writeCell, hs]

theorem decodeRow_encodeObs (o : Obs) (h : CleanObs o) :
    decodeRow (encodeObs o) = o := by
  obtain ⟨h1, h2, h3, h4, h5, h6, h7, h8⟩ := h
  obtain ⟨f1, f2, f3, f4, f5, f6, f7, f8⟩ := o
  simp only [decodeRow, encodeObs] at *
  simp [Obs.mk.injEq, readCell_writeCell _ h1, readCell_writeCell _ h2,
        readCell_writeCell _ h3, readCell_writeCell _ h4, readCell_writeCell _ h5,
        readCell_writeCell _ h6, readCell_writeCell _ h7, readCell_writeCell _ h8]

/-- A field that is a string surviving dtype inference for sure: neither
an NA token nor a numeric-like token.  (NaN is excluded: a NaN cell never
comes back equal to itself under Python ==, and the submission form only
ever appends strings.) -/
def strSafeField : Field → Bool
  | .str s => !(decide (s ∈ pandasNaStrings)) && !numericLike s
  | .nan => false

/-- All eight cells of an observation are NA-safe, non-numeric-like
strings. -/
@[reducible] def StrSafeObs (o : Obs) : Prop :=
  strSafeField o.observation_id = true ∧ strSafeField o.species_name = true
    ∧ strSafeField o.common_name = true ∧ strSafeField o.date_observed = true
    ∧ strSafeField o.location = true ∧ strSafeField o.image_url = true
    ∧ strSafeField o.notes = true ∧ strSafeField o.submitted_by = true

theorem cleanField_of_strSafe (f : Field) (h : strSafeField f = true) :
    cleanField f = true := by
  cases f with
  | nan => rfl
  | str s =>
    have hs : (!(decide (s ∈ pandasNaStrings)) && !numericLike s) = true := h
    rcases Bool.and_eq_true_iff.mp hs with ⟨h1, _⟩
    simp only [Bool.not_eq_true', decide_eq_false_iff_not] at h1
    simpa [cleanField] using h1

theorem cleanObs_of_strSafe (o : Obs) (h : StrSafeObs o) : CleanObs o := by
  obtain ⟨h1, h2, h3, h4, h5, h6, h7, h8⟩ := h
  exact ⟨cleanField_of_strSafe _ h1, cleanField_of_strSafe _ h2,
    cleanField_of_strSafe _ h3, cleanField_of_strSafe _ h4,
    cleanField_of_strSafe _ h5, cleanField_of_strSafe _ h6,
    cleanField_of_strSafe _ h7, cleanField_of_strSafe _ h8⟩

theorem cleanField_readCell (s : String) : cleanField (readCell s) = true := by
  unfold readCell
  by_cases hs : s ∈ pandasNaStrings
  · simp [hs, cleanField]
  · simp [hs, cleanField]

theorem cleanObs_decodeRow (r : RawRow) : CleanObs (decodeRow r) :=
  ⟨cleanField_readCell _, cleanField_readCell _, cleanField_readCell _,
   cleanField_readCell _, cleanField_readCell _, cleanField_readCell _,
   cleanField_readCell _, cleanField_readCell _⟩

/-- A column holding at least one NA-safe, non-numeric-like string
certainly keeps its strings under dtype inference. -/
theorem colKeeps_of_strSafe (f : Field) (h : strSafeField f = true)
    (cells : List String) (hmem : writeCell f ∈ cells) :
    colKeepsStrings cells = true := by
  cases f with
  | nan => exact absurd h (by simp [strSafeField])
  | str s =>
    have hs : (!(decide (s ∈ pandasNaStrings)) && !numericLike s) = true := h
    have hany : cells.any
        (fun t => !(decide (t ∈ pandasNaStrings)) && !numericLike t) = true :=
      List.any_eq_true.mpr ⟨s, hmem, hs⟩
    simp [colKeepsStrings, hany]

theorem isPrefixL_nil (l : List Char) : isPrefixL [] l = true := by
  cases l <;> rfl

theorem substrAux_nil (l : List Char) : substrAux [] l = true := by
  cases l with
  | nil => rfl
  | cons h t => simp [substrAux, isPrefixL_nil]

theorem pyIn_empty (s : String) : pyIn "" s = true := by
  show substrAux [] s.data = true
  exact substrAux_nil _

theorem rowMatches_empty (r : Obs) : rowMatches "" r = true := by
  simp [rowMatches, pyIn_empty]

theorem obsHitsLoop_eq_filter (q : String) (l : List Obs) :
    obsHitsLoop q l = l.filter (fun r => rowMatches q r) := by
  induction l with
  | nil => rfl
  | cons r rs ih =>
    by_cases h : rowMatches q r = true
    · simp [obsHitsLoop, h, List.filter_cons, ih]
    · simp [obsHitsLoop, h, List.filter_cons, ih]

theorem headChar_based (x y z : String) :
    ((("Based on available data, here\x27s what we found:\n\n" ++ x) ++ y)
      ++ z).data.head? = some 'B' := rfl

/-! ## Concrete sample data -/

/-- An observation as the submission form produces it when no image is
uploaded: `image_url` is the empty string (bioscout_app.py line 111). -/
def c1row : Obs :=
  ⟨.str "id-1", .str "Parus major", .str "Great Tit", .str "2024-05-01",
   .str "Rawal Lake", .str "", .str "Seen at dawn", .str "Ali"⟩

/-- An observation all of whose cells are nonempty non-NA strings. -/
def c1wrow : Obs :=
  ⟨.str "id-2", .str "Parus major", .str "Great Tit", .str "2024-05-01",
   .str "Rawal Lake", .str "data/images/a.jpg", .str "Seen at dawn", .str "Ali"⟩

/-- An observation located at Rawal Lake. -/
def rawalObs : Obs :=
  ⟨.str "id-3", .str "Anas platyrhynchos", .str "Mallard", .str "2024-05-02",
   .str "Rawal Lake", .str "", .str "pair near shore", .str "Sara"⟩

/-- A fully-populated observation used for answer-format checks. -/
def c5obs : Obs :=
  ⟨.str "id-4", .str "Parus major", .str "Great Tit", .str "2024-05-01",
   .str "Rawal Lake", .str "", .str "note", .str "Ali"⟩

/-- Observations submitted by Ali, Ali and Sara. -/
def aliObs1 : Obs :=
  ⟨.str "id-5", .str "Parus major", .str "Great Tit", .str "2024-05-01",
   .str "Trail 3", .str "", .str "a", .str "Ali"⟩

def aliObs2 : Obs :=
  ⟨.str "id-6", .str "Columba livia", .str "Rock Dove", .str "2024-05-02",
   .str "Trail 5", .str "", .str "b", .str "Ali"⟩

def saraObs : Obs :=
  ⟨.str "id-7", .str "Pavo cristatus", .str "Peafowl", .str "2024-05-03",
   .str "Zoo", .str "", .str "c", .str "Sara"⟩

/-- An observation whose only missing cell is `image_url`; none of its
four searched fields contains "nan". -/
def c10row : Obs :=
  ⟨.str "id-8", .str "Passer domesticus", .str "House Sparrow", .str "2024-05-03",
   .str "Lake View Park", .nan, .str "seen at dusk", .str "Omar"⟩

/-- An observation whose `notes` cell is missing (NaN). -/
def c10wrow : Obs :=
  ⟨.str "id-9", .str "Passer domesticus", .str "House Sparrow", .str "2024-05-03",
   .str "Lake View Park", .str "", .nan, .str "Omar"⟩

/-! ## Claims -/

/-- Claim C1, counterexample to the claim as stated.  An observation
submitted with no image has `image_url = ""`; `to_csv` writes the empty
string as an empty cell and `read_csv` reads the empty cell back as NaN,
so the record read back is not field-for-field equal to the record that
was appended. -/
theorem c1_counterexample :
    appendThenRead c1row none = some [{ c1row with image_url := Field.nan }]
    ∧ ({ c1row with image_url := Field.nan } : Obs) ≠ c1row := by
  decide

/-- Claim C1, amended: appending an observation with `save_observation`
and reading the store back with `load_observations` yields the previous
table with the appended record at the end, equal field-for-field, provided
every field of the record is a string that is neither a pandas NA token
(in particular not empty) nor a numeric- or boolean-like token subject to
read_csv dtype conversion; the store is any state the string/NaN model
can read (the appended record's fields then keep every column at object
dtype). -/
theorem c1_roundtrip_clean (fs : Option (List RawRow)) (row : Obs)
    (h : StrSafeObs row) (df : List Obs)
    (hload : (load_observations fs).2 = some df) :
    appendThenRead row fs = some (df ++ [row])
    ∧ (df ++ [row]).getLast? = some row := by
  refine ⟨?_, List.getLast?_concat df⟩
  obtain ⟨h1, h2, h3, h4, h5, h6, h7, h8⟩ := h
  have hsave : save_observation row fs = some ((df ++ [row]).map encodeObs) := by
    unfold save_observation
    rw [hload]
    rfl
  have hmemRow : row ∈ df ++ [row] :=
    List.mem_append_right df (List.mem_singleton_self row)
  have hcol : ∀ (projF : Obs → Field) (projS : RawRow → String),
      projS (encodeObs row) = writeCell (projF row) →
      strSafeField (projF row) = true →
      colKeepsStrings (((df ++ [row]).map encodeObs).map projS) = true := by
    intro projF projS hpr hsafe
    apply colKeeps_of_strSafe (projF row) hsafe
    rw [← hpr]
    exact List.mem_map_of_mem projS (List.mem_map_of_mem encodeObs hmemRow)
  have hsafeRows : dtypeSafe ((df ++ [row]).map encodeObs) = true := by
    simp only [dtypeSafe, Bool.and_eq_true]
    exact ⟨⟨⟨⟨⟨⟨⟨hcol (fun o => o.observation_id) (fun r => r.observation_id) rfl h1,
      hcol (fun o => o.species_name) (fun r => r.species_name) rfl h2⟩,
      hcol (fun o => o.common_name) (fun r => r.common_name) rfl h3⟩,
      hcol (fun o => o.date_observed) (fun r => r.date_observed) rfl h4⟩,
      hcol (fun o => o.location) (fun r => r.location) rfl h5⟩,
      hcol (fun o => o.image_url) (fun r => r.image_url) rfl h6⟩,
      hcol (fun o => o.notes) (fun r => r.notes) rfl h7⟩,
      hcol (fun o => o.submitted_by) (fun r => r.submitted_by) rfl h8⟩
  have hdfDecoded : df = ((ensureInitialized fs).getD []).map decodeRow := by
    have hl : read_csv ((ensureInitialized fs).getD []) = some df := hload
    unfold read_csv at hl
    split at hl
    · exact (Option.some_inj.mp hl).symm
    · cases hl
  have hid : ∀ o ∈ df ++ [row], decodeRow (encodeObs o) = o := by
    intro o ho
    rcases List.mem_append.mp ho with hdf | hrow
    · rw [hdfDecoded] at hdf
      obtain ⟨r, _, rfl⟩ := List.mem_map.mp hdf
      exact decodeRow_encodeObs _ (cleanObs_decodeRow r)
    · rw [List.mem_singleton.mp hrow]
      exact decodeRow_encodeObs row (cleanObs_of_strSafe row ⟨h1, h2, h3, h4, h5, h6, h7, h8⟩)
  show (save_observation row fs).bind
      (fun newRows => (load_observations (some newRows)).2) = some (df ++ [row])
  rw [hsave]
  show read_csv ((df ++ [row]).map encodeObs) = some (df ++ [row])
  rw [read_csv, if_pos hsafeRows, List.map_map]
  have : (df ++ [row]).map (decodeRow ∘ encodeObs) = (df ++ [row]).map id :=
    List.map_congr_left (fun o ho => hid o ho)
  rw [this, List.map_id]

/-- Witness for C1: the round-trip theorem applied to the empty store and
a concrete record all of whose fields are NA-safe, non-numeric-like
strings. -/
theorem c1_roundtrip_clean_witness :
    appendThenRead c1wrow none = some ([] ++ [c1wrow])
    ∧ (([] : List Obs) ++ [c1wrow]).getLast? = some c1wrow :=
  c1_roundtrip_clean none c1wrow (by decide) [] (by decide)

/-- Claim C2, counterexample to the claim as stated: for the empty query
the knowledge-base hit list is not empty whenever the snippet list is not
(the empty string is a substring of everything). -/
theorem c2_counterexample :
    (simple_rag_query "" [] ["a"]).1 ≠ [] := by decide

/-- Claim C2, amended: for the empty query string `simple_rag_query`
returns every snippet as a kb hit and every observation as an
observation hit, not empty hit lists. -/
theorem c2_empty_query_matches_all (obs_df : List Obs) (kb_snippets : List String) :
    simple_rag_query "" obs_df kb_snippets = (kb_snippets, obs_df) := by
  have h0 : pyLower "" = "" := rfl
  show (kb_snippets.filter fun s => pyIn (pyLower "") (pyLower s),
        obsHitsLoop (pyLower "") obs_df) = (kb_snippets, obs_df)
  have hkb : (kb_snippets.filter fun s => pyIn "" (pyLower s)) = kb_snippets :=
    List.filter_eq_self.mpr (fun a _ => pyIn_empty _)
  have hobs : obsHitsLoop "" obs_df = obs_df := by
    rw [obsHitsLoop_eq_filter]
    exact List.filter_eq_self.mpr (fun a _ => rowMatches_empty _)
  simp only [h0, hkb, hobs]

/-- Claim C6: store initialization is idempotent — when the backing file
exists, the creation branch of `load_observations` leaves its rows
untouched; the header-only (zero-row) file is created exactly when the
file is absent; and running initialization twice equals running it
once. -/
theorem c6_init_idempotent :
    (∀ rows : List RawRow, ensureInitialized (some rows) = some rows)
    ∧ ensureInitialized none = some []
    ∧ (∀ fs : Option (List RawRow),
        ensureInitialized (ensureInitialized fs) = ensureInitialized fs) := by
  refine ⟨fun rows => rfl, rfl, fun fs => ?_⟩
  cases fs <;> rfl

/-- Claim C7: `ai_species_id` ignores its input entirely (including the
no-image case `none`) and always returns the same three (species,
confidence) pairs in the same order. -/
theorem c7_species_id_constant (image_file : Option String) :
    ai_species_id image_file =
      [⟨"Parus major (Great Tit)", "High"⟩,
       ⟨"Panthera pardus (Leopard)", "Medium"⟩,
       ⟨"Psittacula krameri (Rose-ringed Parakeet)", "Low"⟩] := rfl

/-- Claim C8: on a table whose `submitted_by` column is Ali, Ali, Sara,
`get_top_observer` returns "Ali"; on the empty table it returns "N/A". -/
theorem c8_top_observer :
    get_top_observer [aliObs1, aliObs2, saraObs] = "Ali"
    ∧ get_top_observer [] = "N/A" := by decide

/-- Claim C9: when the knowledge-base directory does not exist,
`get_kb_snippets` returns the empty sequence (the function is total, so
no error is raised). -/
theorem c9_missing_kb_dir : get_kb_snippets none = [] := rfl

/-- Claim C3: the observation hits of `simple_rag_query` are exactly the
observations whose lowercased rendering of `species_name`, `common_name`,
`notes` or `location` contains the lowercased query as a substring
(logical OR across the four fields); they preserve store read order
(they form a sublist of the table); and in particular an observation
located at "Rawal Lake" matches the query "rawal". -/
theorem c3_obs_hits_characterization :
    (∀ (query : String) (obs_df : List Obs) (kb : List String) (r : Obs),
        r ∈ (simple_rag_query query obs_df kb).2 ↔
          r ∈ obs_df ∧
            (pyIn (pyLower query) (pyLower (strOfField r.species_name))
              || pyIn (pyLower query) (pyLower (strOfField r.common_name))
              || pyIn (pyLower query) (pyLower (strOfField r.notes))
              || pyIn (pyLower query) (pyLower (strOfField r.location))) = true)
    ∧ (∀ (query : String) (obs_df : List Obs) (kb : List String),
        List.Sublist (simple_rag_query query obs_df kb).2 obs_df)
    ∧ rawalObs ∈ (simple_rag_query "rawal" [rawalObs] []).2 := by
  refine ⟨fun query obs_df kb r => ?_, fun query obs_df kb => ?_, by decide⟩
  · show r ∈ obsHitsLoop (pyLower query) obs_df ↔ _
    rw [obsHitsLoop_eq_filter, List.mem_filter]
    exact Iff.rfl
  · show List.Sublist (obsHitsLoop (pyLower query) obs_df) obs_df
    rw [obsHitsLoop_eq_filter]
    exact List.filter_sublist obs_df

/-- Claim C4: the knowledge-base hits of `simple_rag_query` are exactly
the snippets whose lowercased full content contains the lowercased query
as a substring; they preserve knowledge-base enumeration order (they form
a sublist of the snippet list); and in particular the snippet "Great Tit
is common in Margalla Hills" matches the query "great tit". -/
theorem c4_kb_hits_characterization :
    (∀ (query : String) (obs_df : List Obs) (kb : List String) (s : String),
        s ∈ (simple_rag_query query obs_df kb).1 ↔
          s ∈ kb ∧ pyIn (pyLower query) (pyLower s) = true)
    ∧ (∀ (query : String) (obs_df : List Obs) (kb : List String),
        List.Sublist (simple_rag_query query obs_df kb).1 kb)
    ∧ "Great Tit is common in Margalla Hills" ∈
        (simple_rag_query "great tit" [] ["Great Tit is common in Margalla Hills"]).1 := by
  refine ⟨fun query obs_df kb s => ?_, fun query obs_df kb => ?_, by decide⟩
  · show s ∈ kb.filter (fun t => pyIn (pyLower query) (pyLower t)) ↔ _
    rw [List.mem_filter]
  · show List.Sublist (kb.filter fun t => pyIn (pyLower query) (pyLower t)) kb
    exact List.filter_sublist kb

/-- Claim C5: the AI-answer rendering returns the fixed not-found message
exactly when both hit lists are empty; otherwise it builds the header
followed by one bullet per kb hit (first line of its text only) and one
bullet per observation hit of the form "species observed at location
(date)", shown here on a concrete input.  Determinism is inherent:
`synthesizeAnswer` is a pure function of its two arguments. -/
theorem c5_synthesize_answer :
    (∀ (kb_hits : List String) (obs_hits : List Obs),
        synthesizeAnswer kb_hits obs_hits = notFoundMessage ↔
          kb_hits = [] ∧ obs_hits = [])
    ∧ synthesizeAnswer ["Great Tit is common in Margalla Hills\nSecond line"] [c5obs]
        = "Based on available data, here\x27s what we found:\n\n• Great Tit is common in Margalla Hills\n• Parus major observed at Rawal Lake (2024-05-01)" := by
  refine ⟨fun kb_hits obs_hits => ?_, by decide⟩
  constructor
  · intro h
    by_contra hne
    have hcond : ¬((kb_hits.isEmpty && obs_hits.isEmpty) = true) := by
      intro hc
      rcases Bool.and_eq_true_iff.mp hc with ⟨hk, ho⟩
      exact hne ⟨List.isEmpty_iff.mp hk, List.isEmpty_iff.mp ho⟩
    simp only [synthesizeAnswer, if_neg hcond] at h
    have hhead := congrArg (fun t => t.data.head?) h
    have hB := headChar_based
      (String.intercalate "\n" (kb_hits.map kbBullet))
      (if kb_hits.isEmpty then "" else "\n")
      (String.intercalate "\n" (obs_hits.map obsBullet))
    have : (some 'B' : Option Char) = notFoundMessage.data.head? :=
      hB.symm.trans hhead
    exact absurd this (by decide)
  · rintro ⟨rfl, rfl⟩
    rfl

/-- Claim C10, counterexample to the claim as stated: an observation
whose only missing (NaN) field is `image_url` — an optional field, but
not one of the four searched fields — is not matched by the query "nan":
the observation-hit list is empty. -/
theorem c10_counterexample :
    c10row.image_url = Field.nan ∧ (simple_rag_query "nan" [c10row] []).2 = [] := by
  decide

/-- Claim C10, amended: `simple_rag_query` matches on `str(field)` of the
four searched fields, so it is total even on missing values, and every
observation with a missing (NaN) value in `species_name`, `common_name`,
`notes` or `location` is matched by the query "nan" and placed in the
observation hits (a missing `image_url` alone is not enough, since
`image_url` is not searched). -/
theorem c10_nan_matches_missing_searched_field
    (obs_df : List Obs) (kb : List String) (r : Obs)
    (hmem : r ∈ obs_df)
    (hnan : r.species_name = Field.nan ∨ r.common_name = Field.nan
      ∨ r.notes = Field.nan ∨ r.location = Field.nan) :
    r ∈ (simple_rag_query "nan" obs_df kb).2 := by
  show r ∈ obsHitsLoop (pyLower "nan") obs_df
  rw [obsHitsLoop_eq_filter, List.mem_filter]
  refine ⟨hmem, ?_⟩
  have hq : pyLower "nan" = "nan" := rfl
  have hx : pyIn "nan" (pyLower (strOfField Field.nan)) = true := by decide
  rw [hq]
  rcases hnan with h | h | h | h <;> simp [rowMatches, h, hx]

/-- Witness for C10: the amended theorem applied to a concrete
observation whose `notes` field is missing, in a singleton table. -/
theorem c10_nan_matches_missing_searched_field_witness :
    c10wrow ∈ (simple_rag_query "nan" [c10wrow] []).2 :=
  c10_nan_matches_missing_searched_field [c10wrow] [] c10wrow (by decide) (by decide)

end BioScout
